import Mathlib

/-!
Shallow embedding of the core of glpi-notifier-rs: the tick orchestrator
(src/main.rs, fn tick), the GLPI transport's session handling and row
parsing (src/glpi.rs), the seen-set store (src/state.rs) and the
notification delivery contract (src/main.rs, show_toast /
show_toast_snoretoast).  Network, filesystem and process effects are made
explicit parameters; machine i64 values are Lean Int with explicit 2^63
bounds where the Rust code checks them.
-/

deriving instance DecidableEq for Except

namespace GlpiNotifier

/-- Mirror of `struct Ticket` in src/glpi.rs: id (i64), name, optional
requester. -/
structure Ticket where
  id : Int
  name : String
  requester : Option String
deriving Repr, DecidableEq, Inhabited

/-- The seen-set of `struct SeenState` (a `BTreeSet<i64>`) is modelled as a
`Finset Int`: finite, duplicate-free, order-irrelevant membership. -/
abbrev Seen := Finset Int

/-- The delivery loop of `tick`: `for t in &fresh { show_toast(t)?;
st.seen_ticket_ids.insert(t.id); }`.  `ok t` tells whether the toast for
`t` succeeds.  Returns the mutated seen-set, the tickets actually
delivered in order, and whether the whole loop completed (false = a toast
error propagated out of `tick` via `?`). -/
def deliverLoop (ok : Ticket → Bool) : List Ticket → Seen → Seen × List Ticket × Bool
  | [], st => (st, [], true)
  | t :: ts, st =>
    if ok t then
      let r := deliverLoop ok ts (insert t.id st)
      (r.1, t :: r.2.1, r.2.2)
    else (st, [], false)

/-- `fresh.sort_by_key(|t| -t.id)`: stable sort by descending id. -/
def sortDesc (l : List Ticket) : List Ticket :=
  l.mergeSort (fun a b => decide (b.id ≤ a.id))

/-- Observable outcome of one `tick` call: final seen-set, final flags,
delivered tickets in order, the seen-set passed to `save_state` this cycle
(if it was called), and the returned `Result<usize>`. -/
structure TickOutcome where
  seen : Seen
  firstRun : Bool
  firstRunNotify : Bool
  delivered : List Ticket
  savedSeen : Option Seen
  result : Except Unit Nat
deriving DecidableEq

/-- Mirror of `async fn tick` in src/main.rs (lines 165-223), with the
query result `tickets` given as input and toast success abstracted by
`ok`.  Covers the first-run baseline branch, the first-run-notify branch
and the steady-state filter/sort/deliver/persist path. -/
def tick (ok : Ticket → Bool) (tickets : List Ticket) (st : Seen)
    (firstRun firstRunNotify : Bool) : TickOutcome :=
  let currentIds := tickets.map Ticket.id
  if firstRun && !firstRunNotify then
    let st' := st ∪ currentIds.toFinset
    { seen := st', firstRun := false, firstRunNotify := firstRunNotify,
      delivered := [], savedSeen := some st', result := .ok 0 }
  else
    let fr := if firstRun && firstRunNotify then false else firstRun
    let frn := if firstRun && firstRunNotify then false else firstRunNotify
    let fresh := sortDesc (tickets.filter (fun t => !(decide (t.id ∈ st))))
    match deliverLoop ok fresh st with
    | (st', ds, true) =>
      { seen := st', firstRun := fr, firstRunNotify := frn, delivered := ds,
        savedSeen := if ds.isEmpty then none else some st', result := .ok ds.length }
    | (st', ds, false) =>
      { seen := st', firstRun := fr, firstRunNotify := frn, delivered := ds,
        savedSeen := none, result := .error () }

/-- Shallow model of `serde_json::Value`.  Wire numbers are split into
integer-valued numbers (i64 or u64 in serde, so the carried `Int` is in
`[-2^63, 2^64)`) and non-integer (floating) numbers, which only keep their
display string; this is exactly the distinction `Number::as_i64` /
`Number::as_u64` / `Display` make in row_to_ticket. -/
inductive Json where
  | null
  | bool (b : Bool)
  | numInt (n : Int)
  | numFloat (disp : String)
  | str (s : String)
  | arr (elems : List Json)
  | obj (fields : List (String × Json))
deriving Inhabited

/-- `Value::get(key)`: field lookup on an object, `None` on every other
shape.  serde's object map holds distinct keys; `List.lookup` takes the
first binding. -/
def Json.get (j : Json) (k : String) : Option Json :=
  match j with
  | .obj fields => fields.lookup k
  | _ => none

/-- Digits of a Rust `i64::from_str` body: nonempty, ASCII digits only. -/
def digitsVal (cs : List Char) : Option Nat :=
  match cs with
  | [] => none
  | _ => cs.foldl
      (fun acc c => acc.bind (fun n =>
        if c.isDigit then some (n * 10 + (c.toNat - 48)) else none))
      (some 0)

/-- `str::trim()`: drop leading and trailing whitespace. -/
def trimChars (cs : List Char) : List Char :=
  ((cs.dropWhile Char.isWhitespace).reverse.dropWhile Char.isWhitespace).reverse

/-- `s.trim().parse::<i64>()`: optional sign, decimal digits, i64 range
check (Rust rejects on overflow). -/
def parseI64 (s : String) : Option Int :=
  let cs := trimChars s.toList
  let v : Option Int :=
    match cs with
    | '+' :: rest => (digitsVal rest).map (fun n => (n : Int))
    | '-' :: rest => (digitsVal rest).map (fun n => -(n : Int))
    | _ => (digitsVal cs).map (fun n => (n : Int))
  v.bind (fun n => if -(2 ^ 63) ≤ n ∧ n < 2 ^ 63 then some n else none)

/-- `extract_i64` in row_to_ticket: a string parses via `i64::from_str`
after trimming; a number yields its value when it is integral and fits in
i64 (`as_i64().or_else(|| as_u64() then i64::try_from)`); everything else
is `None`. -/
def extract_i64 : Json → Option Int
  | .str s => parseI64 s
  | .numInt n => if -(2 ^ 63) ≤ n ∧ n < 2 ^ 63 then some n else none
  | _ => none

/-- `extract_string` in row_to_ticket: strings are trimmed, numbers are
rendered with their decimal display, everything else is `None`. -/
def extract_string : Json → Option String
  | .str s => some (String.mk (trimChars s.toList))
  | .numInt n => some (toString n)
  | .numFloat disp => some disp
  | _ => none

/-- Mirror of `row_to_ticket` (src/glpi.rs lines 268-298): the id field
must be present and parse to an i64, the name defaults to "" and the
requester stays optional. -/
def row_to_ticket (row : Json) (idk namek : String) (reqk : Option String) :
    Option Ticket :=
  match (row.get idk).bind extract_i64 with
  | none => none
  | some id =>
    some
      { id := id
        name := ((row.get namek).bind extract_string).getD ""
        requester := (reqk.bind (fun k => row.get k)).bind extract_string }

/-- Mirror of `parse_ticket_rows` (src/glpi.rs lines 237-266): rows may
arrive as an object keyed by arbitrary strings or as an array; each row
that yields a ticket is kept, the rest are dropped; any other shape gives
the empty list.  The function always returns `Ok`. -/
def parse_ticket_rows (data : Json) (id_field name_field : Int)
    (requester_field : Option Int) : Except Unit (List Ticket) :=
  let idk := toString id_field
  let namek := toString name_field
  let reqk := requester_field.map toString
  match data with
  | .obj fields => .ok (fields.filterMap (fun kv => row_to_ticket kv.2 idk namek reqk))
  | .arr rows => .ok (rows.filterMap (fun row => row_to_ticket row idk namek reqk))
  | _ => .ok []

/-- Client fields that the session lifecycle reads or writes
(`struct GlpiClient`, src/glpi.rs). -/
structure ClientState where
  base_url : String
  session_token : Option String
deriving Repr, DecidableEq

/-- Outcome of one `self.http.get(url)...send().await`: either the send
itself fails (transport error, surfaced by `?`) or a response arrives with
a status, an optional Location header, a body text, and the session token
the body yields when it parses as `InitSessionResp` (`none` = `r.json()`
fails). -/
inductive HttpResult where
  | transportError
  | resp (status : Nat) (location : Option String) (body : String) (token : Option String)
deriving Repr, DecidableEq

/-- Error cases of the session calls: a propagated transport error, a
non-success HTTP status with its body, or a body that does not parse. -/
inductive InitError where
  | transport
  | httpFail (status : Nat) (body : String)
  | badJson
deriving Repr, DecidableEq

/-- `StatusCode::is_redirection()`: 300..=399. -/
def statusIsRedirection (s : Nat) : Bool := decide (300 ≤ s ∧ s ≤ 399)

/-- `StatusCode::is_success()`: 200..=299. -/
def statusIsSuccess (s : Nat) : Bool := decide (200 ≤ s ∧ s ≤ 299)

/-- `s.trim_end_matches(c)`: drop every trailing occurrence of the
character. -/
def trimTrailingChar (c : Char) (s : String) : String :=
  String.mk ((s.toList.reverse.dropWhile (fun x => x == c)).reverse)

/-- One pass of `trim_end_matches` with a string pattern, fuelled: each
strip removes at least one character, so `cs.length` fuel always
suffices. -/
def stripAllSuffixAux (suf : List Char) : Nat → List Char → List Char
  | 0, cs => cs
  | fuel + 1, cs =>
    if suf ≠ [] ∧ suf.isSuffixOf cs then
      stripAllSuffixAux suf fuel (cs.take (cs.length - suf.length))
    else cs

/-- `trim_end_matches` with a string pattern strips the suffix repeatedly
while it matches. -/
def stripAllSuffix (suf : List Char) (cs : List Char) : List Char :=
  stripAllSuffixAux suf cs.length cs

/-- `loc.trim_end_matches('/').trim_end_matches("/initSession")` — the
base-URL rewrite applied to a redirect Location (src/glpi.rs line 86). -/
def rewriteBase (loc : String) : String :=
  String.mk (stripAllSuffix "/initSession".toList (trimTrailingChar '/' loc).toList)

/-- Observable outcome of `init_session`: the client afterwards, the
returned `Result`, and the URLs requested in order. -/
structure InitOutcome where
  client : ClientState
  result : Except InitError Unit
  requests : List String
deriving Repr, DecidableEq

/-- Tail of `init_session` after redirect handling: the non-success check
(status and body go into the error) and the body parse setting the session
token. -/
def initFinish (c : ClientState) (status : Nat) (body : String)
    (token : Option String) (reqs : List String) : InitOutcome :=
  if !statusIsSuccess status then
    { client := c, result := .error (.httpFail status body), requests := reqs }
  else
    match token with
    | none => { client := c, result := .error .badJson, requests := reqs }
    | some t =>
      { client := { c with session_token := some t }, result := .ok (), requests := reqs }

/-- Mirror of `init_session` (src/glpi.rs lines 69-102): one GET to
`base/initSession`; if the response is a 30x with a Location header, the
base URL is rewritten and the GET retried once; then the status check and
body parse run on whatever response is in hand. -/
def init_session (send : String → HttpResult) (c : ClientState) : InitOutcome :=
  match send (trimTrailingChar '/' c.base_url ++ "/initSession") with
  | .transportError =>
    { client := c, result := .error .transport,
      requests := [trimTrailingChar '/' c.base_url ++ "/initSession"] }
  | .resp st loc body tok =>
    if statusIsRedirection st then
      match loc with
      | some l =>
        match send (rewriteBase l ++ "/initSession") with
        | .transportError =>
          { client := { c with base_url := rewriteBase l }, result := .error .transport,
            requests := [trimTrailingChar '/' c.base_url ++ "/initSession",
              rewriteBase l ++ "/initSession"] }
        | .resp st2 _ body2 tok2 =>
          initFinish { c with base_url := rewriteBase l } st2 body2 tok2
            [trimTrailingChar '/' c.base_url ++ "/initSession",
              rewriteBase l ++ "/initSession"]
      | none =>
        initFinish c st body tok [trimTrailingChar '/' c.base_url ++ "/initSession"]
    else initFinish c st body tok [trimTrailingChar '/' c.base_url ++ "/initSession"]

/-- Mirror of `kill_session` (src/glpi.rs lines 104-112): no token means
an immediate `Ok`; otherwise one GET whose response is discarded — but
whose transport error still propagates through `?` — and only after a
response arrives is the token cleared. -/
def kill_session (send : String → HttpResult) (c : ClientState) :
    ClientState × Except InitError Unit :=
  match c.session_token with
  | none => (c, .ok ())
  | some _ =>
    match send (c.base_url ++ "/killSession") with
    | .transportError => (c, .error .transport)
    | .resp _ _ _ _ => ({ c with session_token := none }, .ok ())

/-- Filesystem condition of the state file as `load_state` distinguishes
them: no per-user data directory at all, file absent, `fs::read` failing,
content that does not deserialize, or content that is the JSON array
`ids`. -/
inductive StateFile where
  | noDataDir
  | absent
  | readError
  | unparseable
  | json (ids : List Int)
deriving Repr, DecidableEq

/-- Mirror of `load_state` (src/state.rs lines 19-28): a missing path or
missing file yields the default (empty) state; a read or parse failure is
propagated as an error by `?`; parsed content becomes the set of its
ids (`BTreeSet` deserialization dedups and forgets order). -/
def load_state : StateFile → Except Unit Seen
  | .noDataDir => .ok ∅
  | .absent => .ok ∅
  | .readError => .error ()
  | .unparseable => .error ()
  | .json ids => .ok ids.toFinset

/-- Mirror of `save_state` (src/state.rs lines 30-36): with no data
directory nothing is written; otherwise the file now holds the serialized
seen-set — a `BTreeSet<i64>` serializes as its elements in ascending
order. -/
def save_state (f : StateFile) (st : Seen) : StateFile :=
  match f with
  | .noDataDir => f
  | _ => .json (st.sort (· ≤ ·))

/-- `seen_ticket_ids.insert` applied left to right, as `extend` or a
sequence of inserts does. -/
def insertAll (l : List Int) (st : Seen) : Seen :=
  l.foldl (fun s i => insert i s) st

/-- Outcome of `Command::output()` for the notifier process: the spawn can
fail, or the process exits with `status.code()` (`none` when killed by a
signal) and captured stdout/stderr. -/
inductive ProcOut where
  | launchError
  | exited (code : Option Int) (stdout stderr : String)
deriving Repr, DecidableEq

/-- Failures of one delivery call: the process could not be launched, or
it exited with an unrecognized code — the error carries the code and the
raw stdout/stderr. -/
inductive ToastError where
  | launch
  | badCode (code : Int) (stdout stderr : String)
deriving Repr, DecidableEq

/-- Observable outcome of one delivery call: its `Result` and the list of
URL-open attempts made (each entry one invocation of
`open_url_windows`). -/
structure ToastOutcome where
  result : Except ToastError Unit
  opened : List String
deriving Repr, DecidableEq

/-- Mirror of `show_toast_snoretoast` (src/main.rs lines 242-295):
`code = status.code().unwrap_or(-1)`; codes 0..=5 succeed, with code 4
additionally attempting to open the configured URL once (an open failure
— `openOk = false` — is only logged); any other code fails with the raw
stdout/stderr captured in the error. -/
def show_toast_snoretoast (ticket_id : Int) (open_url : Option String)
    (proc : ProcOut) (openOk : Bool) : ToastOutcome :=
  match proc with
  | .launchError => { result := .error .launch, opened := [] }
  | .exited c out err =>
    let code := c.getD (-1)
    if 0 ≤ code ∧ code ≤ 5 then
      if code = 4 then
        match open_url with
        | some url => { result := .ok (), opened := [url] }
        | none => { result := .ok (), opened := [] }
      else { result := .ok (), opened := [] }
    else { result := .error (.badCode code out err), opened := [] }

/-- Mirror of `show_toast` (src/main.rs lines 226-239): the button URL is
the configured template with every `{id}` replaced by the ticket's decimal
id. -/
def show_toast (tpl : Option String) (t : Ticket) (proc : ProcOut)
    (openOk : Bool) : ToastOutcome :=
  let open_url := tpl.map (fun template => template.replace "{id}" (toString t.id))
  show_toast_snoretoast t.id open_url proc openOk

theorem insertAll_eq_union (l : List Int) (st : Seen) :
    insertAll l st = st ∪ l.toFinset := by
  induction l generalizing st with
  | nil => simp [insertAll]
  | cons a l ih =>
    rw [show insertAll (a :: l) st = insertAll l (insert a st) from rfl, ih,
      Finset.insert_union, List.toFinset_cons, Finset.union_insert]

theorem deliverLoop_allOk (l : List Ticket) (st : Seen) :
    deliverLoop (fun _ => true) l st = (st ∪ (l.map Ticket.id).toFinset, l, true) := by
  induction l generalizing st with
  | nil => simp [deliverLoop]
  | cons t ts ih =>
    simp [deliverLoop, ih, Finset.union_insert, Finset.insert_union]

theorem tick_steady_allOk (tickets : List Ticket) (st : Seen) (frn : Bool) :
    tick (fun _ => true) tickets st false frn =
      { seen := st ∪ ((sortDesc (tickets.filter (fun t => !(decide (t.id ∈ st))))).map Ticket.id).toFinset
        firstRun := false
        firstRunNotify := frn
        delivered := sortDesc (tickets.filter (fun t => !(decide (t.id ∈ st))))
        savedSeen :=
          if (sortDesc (tickets.filter (fun t => !(decide (t.id ∈ st))))).isEmpty then none
          else some (st ∪ ((sortDesc (tickets.filter (fun t => !(decide (t.id ∈ st))))).map Ticket.id).toFinset)
        result := .ok (sortDesc (tickets.filter (fun t => !(decide (t.id ∈ st))))).length } := by
  simp [tick, deliverLoop_allOk]

/-- C1: in a steady-state tick (first_run false), every queried ticket
whose id is not yet seen is delivered exactly once, deliveries are in
strictly descending id order, every delivered id ends up in the seen set,
the final seen set is the starting one united with the delivered ids,
already-seen tickets are not delivered, and the returned count is the
number of deliveries. -/
theorem tick_steady_state_correct (tickets : List Ticket) (st : Seen) (frn : Bool)
    (hnd : (tickets.map Ticket.id).Nodup) :
    (∀ t ∈ tickets, t.id ∉ st →
        (tick (fun _ => true) tickets st false frn).delivered.count t = 1) ∧
    (∀ t ∈ tickets, t.id ∈ st →
        t ∉ (tick (fun _ => true) tickets st false frn).delivered) ∧
    List.Pairwise (fun a b => b.id < a.id)
        (tick (fun _ => true) tickets st false frn).delivered ∧
    (∀ t ∈ (tick (fun _ => true) tickets st false frn).delivered,
        t.id ∈ (tick (fun _ => true) tickets st false frn).seen) ∧
    (tick (fun _ => true) tickets st false frn).seen =
        st ∪ ((tick (fun _ => true) tickets st false frn).delivered.map Ticket.id).toFinset ∧
    (tick (fun _ => true) tickets st false frn).result =
        .ok (tick (fun _ => true) tickets st false frn).delivered.length := by
  have hout := tick_steady_allOk tickets st frn
  set fresh := sortDesc (tickets.filter (fun t => !(decide (t.id ∈ st)))) with hfresh
  have hperm : fresh.Perm (tickets.filter (fun t => !(decide (t.id ∈ st)))) :=
    List.mergeSort_perm _ _
  have hdel : (tick (fun _ => true) tickets st false frn).delivered = fresh := by
    rw [hout]
  have hseen : (tick (fun _ => true) tickets st false frn).seen =
      st ∪ (fresh.map Ticket.id).toFinset := by rw [hout]
  have hnodupT : tickets.Nodup := hnd.of_map _
  have hsub : (tickets.filter (fun t => !(decide (t.id ∈ st)))).Sublist tickets :=
    List.filter_sublist _
  have hnodupF : (fresh.map Ticket.id).Nodup := by
    refine (List.Perm.nodup_iff (List.Perm.map Ticket.id hperm)).mpr ?_
    exact (hsub.map Ticket.id).nodup hnd
  refine ⟨?_, ?_, ?_, ?_, ?_, ?_⟩
  · intro t ht hmem
    rw [hdel, hperm.count_eq, List.count_filter (by simpa using hmem)]
    exact List.count_eq_one_of_mem hnodupT ht
  · intro t _ hmem hcontra
    have : t ∈ tickets.filter (fun t => !(decide (t.id ∈ st))) := by
      rw [← hperm.mem_iff, ← hdel]; exact hcontra
    simp [List.mem_filter] at this
    exact this.2 hmem
  · rw [hdel]
    have hsorted : List.Pairwise (fun a b => (fun x y => decide (y.id ≤ x.id)) a b = true) fresh := by
      refine List.sorted_mergeSort ?_ ?_ _
      · intro a b c hab hbc
        simp only [decide_eq_true_eq] at hab hbc ⊢
        exact le_trans hbc hab
      · intro a b
        simp only [Bool.or_eq_true, decide_eq_true_eq]
        exact le_total b.id a.id
    have hle : List.Pairwise (fun a b => b.id ≤ a.id) fresh :=
      hsorted.imp (fun h => by simpa using h)
    have hne : List.Pairwise (fun a b => a.id ≠ b.id) fresh :=
      List.pairwise_map.mp hnodupF
    exact (hle.and hne).imp (fun h => lt_of_le_of_ne h.1 (Ne.symm h.2))
  · intro t ht
    rw [hseen]
    rw [hdel] at ht
    exact Finset.mem_union_right _ (List.mem_toFinset.mpr (List.mem_map_of_mem _ ht))
  · rw [hseen, hdel]
  · rw [hout]

/-- Witness for C1 at the spec's own example: seen = \x7b100, 101\x7d,
query returns ids 103, 102, 101. -/
theorem tick_steady_state_correct_witness :
    (([⟨103, "", none⟩, ⟨102, "", none⟩, ⟨101, "", none⟩] : List Ticket).map Ticket.id).Nodup ∧
    ((∀ t ∈ ([⟨103, "", none⟩, ⟨102, "", none⟩, ⟨101, "", none⟩] : List Ticket),
        t.id ∉ ({100, 101} : Seen) →
        (tick (fun _ => true) [⟨103, "", none⟩, ⟨102, "", none⟩, ⟨101, "", none⟩]
          ({100, 101} : Seen) false false).delivered.count t = 1) ∧
     (∀ t ∈ ([⟨103, "", none⟩, ⟨102, "", none⟩, ⟨101, "", none⟩] : List Ticket),
        t.id ∈ ({100, 101} : Seen) →
        t ∉ (tick (fun _ => true) [⟨103, "", none⟩, ⟨102, "", none⟩, ⟨101, "", none⟩]
          ({100, 101} : Seen) false false).delivered) ∧
     List.Pairwise (fun a b => b.id < a.id)
        (tick (fun _ => true) [⟨103, "", none⟩, ⟨102, "", none⟩, ⟨101, "", none⟩]
          ({100, 101} : Seen) false false).delivered ∧
     (∀ t ∈ (tick (fun _ => true) [⟨103, "", none⟩, ⟨102, "", none⟩, ⟨101, "", none⟩]
          ({100, 101} : Seen) false false).delivered,
        t.id ∈ (tick (fun _ => true) [⟨103, "", none⟩, ⟨102, "", none⟩, ⟨101, "", none⟩]
          ({100, 101} : Seen) false false).seen) ∧
     (tick (fun _ => true) [⟨103, "", none⟩, ⟨102, "", none⟩, ⟨101, "", none⟩]
          ({100, 101} : Seen) false false).seen =
        ({100, 101} : Seen) ∪
          ((tick (fun _ => true) [⟨103, "", none⟩, ⟨102, "", none⟩, ⟨101, "", none⟩]
            ({100, 101} : Seen) false false).delivered.map Ticket.id).toFinset ∧
     (tick (fun _ => true) [⟨103, "", none⟩, ⟨102, "", none⟩, ⟨101, "", none⟩]
          ({100, 101} : Seen) false false).result =
        .ok (tick (fun _ => true) [⟨103, "", none⟩, ⟨102, "", none⟩, ⟨101, "", none⟩]
          ({100, 101} : Seen) false false).delivered.length) :=
  ⟨by decide, tick_steady_state_correct _ _ _ (by decide)⟩

/-- C2: the first cycle with first_run_notify = false delivers nothing,
records exactly the fetched ids (the loaded seen set being empty on a
first run), persists that state, clears first_run and returns count 0. -/
theorem tick_first_run_baseline (ok : Ticket → Bool) (tickets : List Ticket)
    (st : Seen) (hempty : st = ∅) :
    (tick ok tickets st true false).delivered = [] ∧
    (tick ok tickets st true false).seen = (tickets.map Ticket.id).toFinset ∧
    (tick ok tickets st true false).savedSeen =
      some (tick ok tickets st true false).seen ∧
    (tick ok tickets st true false).firstRun = false ∧
    (tick ok tickets st true false).result = .ok 0 := by
  subst hempty
  refine ⟨rfl, ?_, rfl, rfl, rfl⟩
  show (∅ : Seen) ∪ (tickets.map Ticket.id).toFinset = (tickets.map Ticket.id).toFinset
  exact Finset.empty_union _

/-- Witness for C2 at a concrete first run fetching ids 5 and 7. -/
theorem tick_first_run_baseline_witness :
    ((∅ : Seen) = ∅) ∧
    ((tick (fun _ => true) [⟨5, "a", none⟩, ⟨7, "b", some "u"⟩] (∅ : Seen) true false).delivered = [] ∧
     (tick (fun _ => true) [⟨5, "a", none⟩, ⟨7, "b", some "u"⟩] (∅ : Seen) true false).seen =
       (([⟨5, "a", none⟩, ⟨7, "b", some "u"⟩] : List Ticket).map Ticket.id).toFinset ∧
     (tick (fun _ => true) [⟨5, "a", none⟩, ⟨7, "b", some "u"⟩] (∅ : Seen) true false).savedSeen =
       some (tick (fun _ => true) [⟨5, "a", none⟩, ⟨7, "b", some "u"⟩] (∅ : Seen) true false).seen ∧
     (tick (fun _ => true) [⟨5, "a", none⟩, ⟨7, "b", some "u"⟩] (∅ : Seen) true false).firstRun = false ∧
     (tick (fun _ => true) [⟨5, "a", none⟩, ⟨7, "b", some "u"⟩] (∅ : Seen) true false).result = .ok 0) :=
  ⟨rfl, tick_first_run_baseline _ _ _ rfl⟩

/-- C3: the first cycle with first_run_notify = true produces exactly the
outcome of a steady-state cycle on the same inputs, and both flags come
out cleared, so every later cycle takes the steady-state path. -/
theorem tick_first_run_notify_steady (ok : Ticket → Bool) (tickets : List Ticket)
    (st : Seen) :
    tick ok tickets st true true = tick ok tickets st false false ∧
    (tick ok tickets st true true).firstRun = false ∧
    (tick ok tickets st true true).firstRunNotify = false := by
  refine ⟨rfl, ?_, ?_⟩ <;>
  · rcases hd : deliverLoop ok (sortDesc (tickets.filter (fun t => !(decide (t.id ∈ st))))) st
      with ⟨st', ds, b⟩
    cases b <;> simp [tick, hd]

/-- C4 (failing input): with a session token held and the HTTP send
failing at the transport level, kill_session returns an error — the `?`
after `let _ =` still propagates it — and the session token is NOT
cleared.  This contradicts the claim that end_session never raises and
always clears the token; the `let _ =` and the cleanup-only role show the
swallowing was the intent. -/
theorem kill_session_transport_error_propagates :
    kill_session (fun _ => .transportError)
        { base_url := "https://glpi.example", session_token := some "tok" } =
      ({ base_url := "https://glpi.example", session_token := some "tok" },
        .error .transport) := rfl

/-- C5 (counterexample): when the state file exists but `fs::read` fails,
load_state returns an error, not the empty state the claim promises; the
same holds for unparseable content. -/
theorem load_state_read_error_not_empty :
    load_state .readError = .error () ∧
    load_state .readError ≠ .ok (∅ : Seen) ∧
    load_state .unparseable = .error () := by
  refine ⟨rfl, ?_, rfl⟩
  intro h
  exact Except.noConfusion h

/-- C5 (amended): load_state returns the empty state when the file is
absent or no per-user data directory exists; a read failure or
unparseable content instead propagates as an error (which the caller in
main_loop_with_flags converts to the empty default). -/
theorem load_state_absent_empty :
    load_state .absent = .ok (∅ : Seen) ∧
    load_state .noDataDir = .ok (∅ : Seen) ∧
    load_state .readError = .error () ∧
    load_state .unparseable = .error () :=
  ⟨rfl, rfl, rfl, rfl⟩

/-- C9: a seen state built by inserting ids in any order, once saved and
loaded back, yields exactly the same set of ids; two insertion orders of
the same ids give the same stored set.  (The one filesystem condition
excluded is the absent per-user data directory, where save_state writes
nothing at all.) -/
theorem save_load_roundtrip (f : StateFile) (l₁ l₂ : List Int)
    (hf : f ≠ .noDataDir) (hp : l₁.Perm l₂) :
    load_state (save_state f (insertAll l₁ ∅)) = .ok (insertAll l₁ ∅) ∧
    insertAll l₁ ∅ = insertAll l₂ ∅ := by
  constructor
  · have hsave : save_state f (insertAll l₁ ∅) =
        .json ((insertAll l₁ ∅).sort (· ≤ ·)) := by
      cases f with
      | noDataDir => exact absurd rfl hf
      | absent => rfl
      | readError => rfl
      | unparseable => rfl
      | json ids => rfl
    rw [hsave]
    show Except.ok ((insertAll l₁ ∅).sort (· ≤ ·)).toFinset = .ok (insertAll l₁ ∅)
    rw [Finset.sort_toFinset]
  · rw [insertAll_eq_union, insertAll_eq_union, List.toFinset_eq_of_perm _ _ hp]

/-- Witness for C9: ids 5, 2, 9 inserted in two different orders over a
previously saved file. -/
theorem save_load_roundtrip_witness :
    ((StateFile.json [3]) ≠ StateFile.noDataDir) ∧
    (([5, 2, 9] : List Int).Perm [9, 5, 2]) ∧
    (load_state (save_state (.json [3]) (insertAll [5, 2, 9] ∅)) =
        .ok (insertAll [5, 2, 9] ∅) ∧
      insertAll ([5, 2, 9] : List Int) ∅ = insertAll [9, 5, 2] ∅) :=
  ⟨by decide, by decide, save_load_roundtrip _ _ _ (by decide) (by decide)⟩

/-- C10: parse_ticket_rows is total — every JSON shape of the data field
yields an Ok result, and every shape other than an object or an array
yields the empty ticket list. -/
theorem parse_ticket_rows_total (idf namef : Int) (reqf : Option Int) :
    (∀ d : Json, ∃ ts, parse_ticket_rows d idf namef reqf = .ok ts) ∧
    parse_ticket_rows .null idf namef reqf = .ok [] ∧
    (∀ b, parse_ticket_rows (.bool b) idf namef reqf = .ok []) ∧
    (∀ n, parse_ticket_rows (.numInt n) idf namef reqf = .ok []) ∧
    (∀ s, parse_ticket_rows (.numFloat s) idf namef reqf = .ok []) ∧
    (∀ s, parse_ticket_rows (.str s) idf namef reqf = .ok []) := by
  refine ⟨?_, rfl, fun _ => rfl, fun _ => rfl, fun _ => rfl, fun _ => rfl⟩
  intro d
  cases d <;> exact ⟨_, rfl⟩

/-- C6: a row without a parseable identifier contributes nothing and its
removal leaves the rest of the batch unchanged (both for array-shaped and
object-shaped row collections); every well-formed row still appears in
the result; and both the identifier and the requester field are accepted
in string as well as numeric wire representation. -/
theorem parse_rows_drop_malformed (idf namef : Int) (reqf : Option Int) :
    (∀ (rows₁ rows₂ : List Json) (r : Json),
        row_to_ticket r (toString idf) (toString namef) (reqf.map toString) = none →
        parse_ticket_rows (.arr (rows₁ ++ r :: rows₂)) idf namef reqf =
          parse_ticket_rows (.arr (rows₁ ++ rows₂)) idf namef reqf) ∧
    (∀ (kvs₁ kvs₂ : List (String × Json)) (k : String) (r : Json),
        row_to_ticket r (toString idf) (toString namef) (reqf.map toString) = none →
        parse_ticket_rows (.obj (kvs₁ ++ (k, r) :: kvs₂)) idf namef reqf =
          parse_ticket_rows (.obj (kvs₁ ++ kvs₂)) idf namef reqf) ∧
    (∀ (rows : List Json) (r : Json) (t : Ticket), r ∈ rows →
        row_to_ticket r (toString idf) (toString namef) (reqf.map toString) = some t →
        ∃ ts, parse_ticket_rows (.arr rows) idf namef reqf = .ok ts ∧ t ∈ ts) ∧
    (∀ (n : Int) (s : String), parseI64 s = some n → extract_i64 (.str s) = some n) ∧
    (∀ n : Int, -(2 ^ 63) ≤ n → n < 2 ^ 63 → extract_i64 (.numInt n) = some n) ∧
    (∀ s : String, extract_string (.str s) = some (String.mk (trimChars s.toList))) ∧
    (∀ n : Int, extract_string (.numInt n) = some (toString n)) := by
  refine ⟨?_, ?_, ?_, ?_, ?_, fun _ => rfl, fun _ => rfl⟩
  · intro rows₁ rows₂ r hr
    simp [parse_ticket_rows, List.filterMap_append, List.filterMap_cons, hr]
  · intro kvs₁ kvs₂ k r hr
    simp [parse_ticket_rows, List.filterMap_append, List.filterMap_cons, hr]
  · intro rows r t hmem hr
    refine ⟨_, rfl, ?_⟩
    exact List.mem_filterMap.mpr ⟨r, hmem, hr⟩
  · intro n s h
    simpa [extract_i64] using h
  · intro n h₁ h₂
    show (if -(2 ^ 63) ≤ n ∧ n < 2 ^ 63 then some n else (none : Option Int)) = some n
    rw [if_pos ⟨h₁, h₂⟩]

/-- Witness for C6: a malformed middle row (id "x") between a string-id
row and a numeric-id row is dropped while both siblings survive; the
requester arrives once as a number and once as a string. -/
theorem parse_rows_drop_malformed_witness :
    (row_to_ticket (.obj [("2", .str "x")]) (toString (2 : Int)) (toString (1 : Int))
        ((some (3 : Int)).map toString) = none) ∧
    parse_ticket_rows
        (.arr [.obj [("2", .str " 7 "), ("1", .str "hello"), ("3", .numInt 12)],
               .obj [("2", .str "x")],
               .obj [("2", .numInt 9), ("3", .str " jane ")]]) 2 1 (some 3) =
      parse_ticket_rows
        (.arr [.obj [("2", .str " 7 "), ("1", .str "hello"), ("3", .numInt 12)],
               .obj [("2", .numInt 9), ("3", .str " jane ")]]) 2 1 (some 3) :=
  ⟨by decide,
    (parse_rows_drop_malformed 2 1 (some 3)).1
      [.obj [("2", .str " 7 "), ("1", .str "hello"), ("3", .numInt 12)]]
      [.obj [("2", .numInt 9), ("3", .str " jane ")]]
      (.obj [("2", .str "x")]) (by decide)⟩

/-- C8: exit code 4 makes exactly one URL-open attempt with the template's
\x7bid\x7d replaced by the ticket id and succeeds even when the open attempt
fails; every other code in 0..=5 succeeds with no attempt; any code
outside 0..=5 (including a signal-killed process, mapped to -1) fails
with the raw stdout and stderr captured in the error. -/
theorem show_toast_exit_code_protocol (tpl : String) (t : Ticket)
    (stdout stderr : String) (openOk : Bool) :
    (show_toast (some tpl) t (.exited (some 4) stdout stderr) openOk =
      { result := .ok (), opened := [tpl.replace "{id}" (toString t.id)] }) ∧
    (∀ code : Int, 0 ≤ code → code ≤ 5 → code ≠ 4 →
      show_toast (some tpl) t (.exited (some code) stdout stderr) openOk =
        { result := .ok (), opened := [] }) ∧
    (∀ code : Int, ¬(0 ≤ code ∧ code ≤ 5) →
      show_toast (some tpl) t (.exited (some code) stdout stderr) openOk =
        { result := .error (.badCode code stdout stderr), opened := [] }) ∧
    (show_toast (some tpl) t (.exited none stdout stderr) openOk =
      { result := .error (.badCode (-1) stdout stderr), opened := [] }) := by
  refine ⟨?_, ?_, ?_, ?_⟩
  · simp [show_toast, show_toast_snoretoast]
  · intro code h0 h5 h4
    simp [show_toast, show_toast_snoretoast, h0, h5, h4]
  · intro code h
    simp [show_toast, show_toast_snoretoast, h]
  · simp [show_toast, show_toast_snoretoast]

/-- Witness for C8 at codes 2 and 7 on a concrete ticket and template. -/
theorem show_toast_exit_code_protocol_witness :
    ((0 : Int) ≤ 2 ∧ (2 : Int) ≤ 5 ∧ (2 : Int) ≠ 4 ∧ ¬((0 : Int) ≤ 7 ∧ (7 : Int) ≤ 5)) ∧
    (show_toast (some "https://g/ticket.form.php?id={id}") ⟨77, "n", none⟩
        (.exited (some 2) "out" "err") false =
      { result := .ok (), opened := [] }) ∧
    (show_toast (some "https://g/ticket.form.php?id={id}") ⟨77, "n", none⟩
        (.exited (some 7) "out" "err") false =
      { result := .error (.badCode 7 "out" "err"), opened := [] }) :=
  ⟨by decide,
    (show_toast_exit_code_protocol "https://g/ticket.form.php?id={id}" ⟨77, "n", none⟩
      "out" "err" false).2.1 2 (by decide) (by decide) (by decide),
    (show_toast_exit_code_protocol "https://g/ticket.form.php?id={id}" ⟨77, "n", none⟩
      "out" "err" false).2.2.1 7 (by decide)⟩

theorem initFinish_requests (c : ClientState) (status : Nat) (body : String)
    (token : Option String) (reqs : List String) :
    (initFinish c status body token reqs).requests = reqs := by
  unfold initFinish
  split
  · rfl
  · cases token <;> rfl

theorem initFinish_base_url (c : ClientState) (status : Nat) (body : String)
    (token : Option String) (reqs : List String) :
    (initFinish c status body token reqs).client.base_url = c.base_url := by
  unfold initFinish
  split
  · rfl
  · cases token <;> rfl

theorem initFinish_result_fail (c : ClientState) (status : Nat) (body : String)
    (token : Option String) (reqs : List String) (h : statusIsSuccess status = false) :
    (initFinish c status body token reqs).result = .error (.httpFail status body) ∧
    (initFinish c status body token reqs).client = c := by
  simp [initFinish, h]

theorem initFinish_result_ok (c : ClientState) (status : Nat) (body : String)
    (t : String) (reqs : List String) (h : statusIsSuccess status = true) :
    (initFinish c status body (some t) reqs).result = .ok () ∧
    (initFinish c status body (some t) reqs).client.session_token = some t := by
  simp [initFinish, h]

/-- C7: init_session makes at most two requests, never looping; a first
redirect response with a Location rewrites the base URL to the trimmed
target and retries exactly once against it; after the retry any
non-success status — a second redirect included — is a fatal error
carrying that status and body; a success response sets the session token
from the parsed body.  The non-redirect first responses behave the same
way directly. -/
theorem init_session_redirect_once (send : String → HttpResult) (c : ClientState) :
    (init_session send c).requests.length ≤ 2 ∧
    (∀ st loc body tok l,
      send (trimTrailingChar '/' c.base_url ++ "/initSession") = .resp st loc body tok →
      statusIsRedirection st = true → loc = some l →
        (init_session send c).client.base_url = rewriteBase l ∧
        (init_session send c).requests =
          [trimTrailingChar '/' c.base_url ++ "/initSession",
            rewriteBase l ++ "/initSession"] ∧
        (∀ st₂ loc₂ body₂ tok₂,
          send (rewriteBase l ++ "/initSession") = .resp st₂ loc₂ body₂ tok₂ →
          (statusIsSuccess st₂ = false →
            (init_session send c).result = .error (.httpFail st₂ body₂)) ∧
          (statusIsRedirection st₂ = true →
            (init_session send c).result = .error (.httpFail st₂ body₂)) ∧
          (∀ t₂, statusIsSuccess st₂ = true → tok₂ = some t₂ →
            (init_session send c).result = .ok () ∧
            (init_session send c).client.session_token = some t₂))) ∧
    (∀ st loc body tok,
      send (trimTrailingChar '/' c.base_url ++ "/initSession") = .resp st loc body tok →
      statusIsRedirection st = false → statusIsSuccess st = false →
        (init_session send c).result = .error (.httpFail st body)) ∧
    (∀ st loc body t,
      send (trimTrailingChar '/' c.base_url ++ "/initSession") = .resp st loc body (some t) →
      statusIsRedirection st = false → statusIsSuccess st = true →
        (init_session send c).result = .ok () ∧
        (init_session send c).client.session_token = some t) := by
  have hred_succ : ∀ s : Nat, statusIsRedirection s = true → statusIsSuccess s = false := by
    intro s h
    simp only [statusIsRedirection, decide_eq_true_eq] at h
    simp only [statusIsSuccess, decide_eq_false_iff_not]
    omega
  refine ⟨?_, ?_, ?_, ?_⟩
  · rcases h : send (trimTrailingChar '/' c.base_url ++ "/initSession") with _ | ⟨st, loc, body, tok⟩
    · simp [init_session, h]
    · cases hred : statusIsRedirection st with
      | false => simp [init_session, h, hred, initFinish_requests]
      | true =>
        rcases loc with _ | ⟨l⟩
        · simp [init_session, h, hred, initFinish_requests]
        · rcases h2 : send (rewriteBase l ++ "/initSession") with _ | ⟨st2, loc2, body2, tok2⟩
          · simp [init_session, h, hred, h2]
          · simp [init_session, h, hred, h2, initFinish_requests]
  · intro st loc body tok l h hred hloc
    subst hloc
    have hout : init_session send c =
        match send (rewriteBase l ++ "/initSession") with
        | .transportError =>
          { client := { c with base_url := rewriteBase l },
            result := .error .transport,
            requests := [trimTrailingChar '/' c.base_url ++ "/initSession",
              rewriteBase l ++ "/initSession"] }
        | .resp st2 _ body2 tok2 =>
          initFinish { c with base_url := rewriteBase l } st2 body2 tok2
            [trimTrailingChar '/' c.base_url ++ "/initSession",
              rewriteBase l ++ "/initSession"] := by
      simp [init_session, h, hred]
    refine ⟨?_, ?_, ?_⟩
    · rw [hout]
      cases h2 : send (rewriteBase l ++ "/initSession") with
      | transportError => rfl
      | resp st2 loc2 body2 tok2 => rw [initFinish_base_url]
    · rw [hout]
      cases h2 : send (rewriteBase l ++ "/initSession") with
      | transportError => rfl
      | resp st2 loc2 body2 tok2 => rw [initFinish_requests]
    · intro st₂ loc₂ body₂ tok₂ h2
      rw [hout, h2]
      refine ⟨?_, ?_, ?_⟩
      · intro hf
        exact (initFinish_result_fail _ _ _ _ _ hf).1
      · intro hr2
        exact (initFinish_result_fail _ _ _ _ _ (hred_succ _ hr2)).1
      · intro t₂ hs ht
        subst ht
        exact initFinish_result_ok _ _ _ _ _ hs
  · intro st loc body tok h hred hfail
    have hout : init_session send c =
        initFinish c st body tok [trimTrailingChar '/' c.base_url ++ "/initSession"] := by
      simp [init_session, h, hred]
    rw [hout]
    exact (initFinish_result_fail _ _ _ _ _ hfail).1
  · intro st loc body t h hred hsucc
    have hout : init_session send c =
        initFinish c st body (some t) [trimTrailingChar '/' c.base_url ++ "/initSession"] := by
      simp [init_session, h, hred]
    rw [hout]
    exact initFinish_result_ok _ _ _ _ _ hsucc

/-- A concrete remote for the C7 witness: the original base answers with a
302 redirect to the new endpoint, the new base answers 200 with a session
token. -/
def sendRedirectExample : String → HttpResult := fun u =>
  if u = "https://old/initSession" then
    .resp 302 (some "https://new/initSession") "moved" none
  else if u = "https://new/initSession" then
    .resp 200 none "ok" (some "tok")
  else .transportError

/-- Witness for C7: one redirect is followed, the base URL is rewritten,
exactly two requests go out, and the token from the second response is
stored. -/
theorem init_session_redirect_once_witness :
    (sendRedirectExample (trimTrailingChar '/' "https://old" ++ "/initSession") =
      .resp 302 (some "https://new/initSession") "moved" none) ∧
    statusIsRedirection 302 = true ∧
    (sendRedirectExample (rewriteBase "https://new/initSession" ++ "/initSession") =
      .resp 200 none "ok" (some "tok")) ∧
    statusIsSuccess 200 = true ∧
    ((init_session sendRedirectExample ⟨"https://old", none⟩).client.base_url =
      rewriteBase "https://new/initSession" ∧
    (init_session sendRedirectExample ⟨"https://old", none⟩).requests =
      [trimTrailingChar '/' "https://old" ++ "/initSession",
        rewriteBase "https://new/initSession" ++ "/initSession"] ∧
    (init_session sendRedirectExample ⟨"https://old", none⟩).result = .ok () ∧
    (init_session sendRedirectExample ⟨"https://old", none⟩).client.session_token =
      some "tok") := by
  have h := (init_session_redirect_once sendRedirectExample ⟨"https://old", none⟩).2.1
    302 (some "https://new/initSession") "moved" none "https://new/initSession"
    (by decide) (by decide) rfl
  refine ⟨by decide, by decide, by decide, by decide, h.1, h.2.1, ?_, ?_⟩
  · exact ((h.2.2 200 none "ok" (some "tok") (by decide)).2.2 "tok" (by decide) rfl).1
  · exact ((h.2.2 200 none "ok" (some "tok") (by decide)).2.2 "tok" (by decide) rfl).2

end GlpiNotifier
